import Mathlib

/-!
# unsafeconv: zero-copy conversion between Go strings and byte slices

A shallow embedding of `unsafestr.go`.

* A Go `[]byte` value is its three-word header (`sliceHeader`), a Go `string`
  value its two-word header (`stringHeader`).  Pointers are addresses, `0` is
  `nil`.  Lengths and capacities are Go `int`s that are never negative, so
  they are natural numbers here.
* `init` reads only `unsafe.Sizeof` and `unsafe.Offsetof` of four header
  types; those fourteen numbers are the fields of `Layout`.
* Code that can panic returns an `Outcome`.
-/

namespace Unsafeconv

/-! ## Results of running Go code -/

/-- Result of running a Go function: a returned value, or a panic carrying its message. -/
inductive Outcome (α : Type) where
  | ok (val : α) : Outcome α
  | panic (msg : String) : Outcome α
  deriving DecidableEq, Repr

/-! ## The header types (lines 14-27 of `unsafestr.go`) -/

/-- The Go types that occur as field types of the two local headers. -/
inductive GoType where
  | pointer
  | int
  deriving DecidableEq, Repr

/-- Sizes of the primitive types on the host. -/
structure Arch where
  ptrSize : Nat
  intSize : Nat
  deriving DecidableEq, Repr

/-- Value of `unsafe.Sizeof` on a value of a primitive type. -/
def sizeofType (A : Arch) : GoType → Nat
  | .pointer => A.ptrSize
  | .int => A.intSize

/-- Declaration `type sliceHeader struct { data unsafe.Pointer; len int; cap int }`. -/
def sliceHeaderDecl : List (String × GoType) :=
  [("data", .pointer), ("len", .int), ("cap", .int)]

/-- Declaration `type stringHeader struct { data unsafe.Pointer; len int }`. -/
def stringHeaderDecl : List (String × GoType) :=
  [("data", .pointer), ("len", .int)]

/-- Size of the named field of a struct declaration, when the field exists. -/
def fieldSize (A : Arch) (decl : List (String × GoType)) (field : String) : Option Nat :=
  (decl.lookup field).map (sizeofType A)

/-- Header of a `[]byte` value: data pointer, length, capacity. -/
structure sliceHeader where
  data : Nat
  len : Nat
  cap : Nat
  deriving DecidableEq, Repr

/-- Header of a `string` value: data pointer, length. -/
structure stringHeader where
  data : Nat
  len : Nat
  deriving DecidableEq, Repr

/-! ## The layout verifier (`init`, lines 29-72) -/

/-- The sizes and field offsets that `init` compares. -/
structure Layout where
  /-- Value of `unsafe.Sizeof(sliceHdr)`. -/
  sliceHdrSize : Nat
  /-- Value of `unsafe.Offsetof(sliceHdr.data)`. -/
  sliceHdrData : Nat
  /-- Value of `unsafe.Offsetof(sliceHdr.len)`. -/
  sliceHdrLen : Nat
  /-- Value of `unsafe.Offsetof(sliceHdr.cap)`. -/
  sliceHdrCap : Nat
  /-- Value of `unsafe.Sizeof(reflectSliceHdr)`. -/
  reflectSliceHdrSize : Nat
  /-- Value of `unsafe.Offsetof(reflectSliceHdr.Data)`. -/
  reflectSliceHdrData : Nat
  /-- Value of `unsafe.Offsetof(reflectSliceHdr.Len)`. -/
  reflectSliceHdrLen : Nat
  /-- Value of `unsafe.Offsetof(reflectSliceHdr.Cap)`. -/
  reflectSliceHdrCap : Nat
  /-- Value of `unsafe.Sizeof(strHdr)`. -/
  strHdrSize : Nat
  /-- Value of `unsafe.Offsetof(strHdr.data)`. -/
  strHdrData : Nat
  /-- Value of `unsafe.Offsetof(strHdr.len)`. -/
  strHdrLen : Nat
  /-- Value of `unsafe.Sizeof(reflectStrHdr)`. -/
  reflectStrHdrSize : Nat
  /-- Value of `unsafe.Offsetof(reflectStrHdr.Data)`. -/
  reflectStrHdrData : Nat
  /-- Value of `unsafe.Offsetof(reflectStrHdr.Len)`. -/
  reflectStrHdrLen : Nat
  deriving DecidableEq, Repr

/-- The function `init`: nine comparisons in source order, each with its own `panic`. -/
def init (L : Layout) : Outcome Unit :=
  if L.sliceHdrSize ≠ L.reflectSliceHdrSize then
    .panic "slice internal format has changed: different size"
  else if L.sliceHdrData ≠ L.reflectSliceHdrData then
    .panic "slice internal format has changed: different data offset"
  else if L.sliceHdrLen ≠ L.reflectSliceHdrLen then
    .panic "slice internal format has changed: different len offset"
  else if L.sliceHdrCap ≠ L.reflectSliceHdrCap then
    .panic "slice internal format has changed: different cap offset"
  else if L.strHdrSize ≠ L.reflectStrHdrSize then
    .panic "string internal format has changed"
  else if L.strHdrData ≠ L.reflectStrHdrData then
    .panic "string internal format has changed: different data offset"
  else if L.strHdrLen ≠ L.reflectStrHdrLen then
    .panic "string internal format has changed: different len offset"
  else if L.reflectSliceHdrData ≠ L.reflectStrHdrData then
    .panic "string internal data pointer different from slice"
  else if L.reflectSliceHdrLen ≠ L.reflectStrHdrLen then
    .panic "string internal data pointer different from slice"
  else
    .ok ()

/-- All nine comparisons of `init` come out equal. -/
def Layout.agrees (L : Layout) : Prop :=
  L.sliceHdrSize = L.reflectSliceHdrSize ∧
  L.sliceHdrData = L.reflectSliceHdrData ∧
  L.sliceHdrLen = L.reflectSliceHdrLen ∧
  L.sliceHdrCap = L.reflectSliceHdrCap ∧
  L.strHdrSize = L.reflectStrHdrSize ∧
  L.strHdrData = L.reflectStrHdrData ∧
  L.strHdrLen = L.reflectStrHdrLen ∧
  L.reflectSliceHdrData = L.reflectStrHdrData ∧
  L.reflectSliceHdrLen = L.reflectStrHdrLen

/-! ## The conversions (`Str`, lines 74-78; `Bytes`, lines 80-106) -/

/-- The function `Str`: `*(*string)(unsafe.Pointer(&b))` reads the slice header
through a string pointer, which keeps the data pointer and the length and has
no capacity field to read. -/
def Str (b : sliceHeader) : stringHeader :=
  ⟨b.data, b.len⟩

/-- The constant `MaxInt32 = 1<<31 - 1` declared inside `Bytes`. -/
def MaxInt32 : Nat := (1 <<< 31) - 1

/-- Message of the run-time panic raised by dereferencing a nil pointer. -/
def nilDerefMsg : String := "runtime error: invalid memory address or nil pointer dereference"

/-- Message of the run-time panic raised when the third index `max` of a full
slice expression exceeds the length `n` of the sliced array. -/
def boundsMaxMsg (max n : Nat) : String :=
  "runtime error: slice bounds out of range [::" ++ toString max ++ "] with length " ++
    toString n

/-- Message of the run-time panic raised when the second index `high` of a full
slice expression exceeds the third index `max`. -/
def boundsHighMsg (high max : Nat) : String :=
  "runtime error: slice bounds out of range [:" ++ toString high ++ ":" ++ toString max ++ "]"

/-- Full slice expression `p[:high:max]` on a pointer `p` to an array of `n` bytes.
It is shorthand for `(*p)[:high:max]`: the pointer is dereferenced, which panics
on nil, then `max <= n` and `high <= max` are checked (the low index is 0), and
the result starts at the first element of the array with length `high - 0` and
capacity `max - 0`. -/
def sliceArrayPtr (p n high max : Nat) : Outcome sliceHeader :=
  if p = 0 then .panic nilDerefMsg
  else if ¬ max ≤ n then .panic (boundsMaxMsg max n)
  else if ¬ high ≤ max then .panic (boundsHighMsg high max)
  else .ok ⟨p + 0, high - 0, max - 0⟩

/-- The function `Bytes`:
`(*[MaxInt32]byte)((*stringHeader)(unsafe.Pointer(&s)).data)[: len(s)&MaxInt32 : len(s)&MaxInt32]`. -/
def Bytes (s : stringHeader) : Outcome sliceHeader :=
  sliceArrayPtr s.data MaxInt32 (s.len &&& MaxInt32) (s.len &&& MaxInt32)

/-! ## Memory and byte content -/

/-- Contents of the `len` bytes of memory `m` starting at address `data`. -/
def region (m : Nat → Nat) (data len : Nat) : List Nat :=
  (List.range len).map (fun i => m (data + i))

/-- Byte content of a slice in memory `m`. -/
def sliceHeader.bytes (m : Nat → Nat) (b : sliceHeader) : List Nat :=
  region m b.data b.len

/-- Byte content of a string in memory `m`. -/
def stringHeader.bytes (m : Nat → Nat) (s : stringHeader) : List Nat :=
  region m s.data s.len

/-! ## Concrete layouts -/

/-- Layout of the gc toolchain on a 64-bit host: slice header `data@0 len@8 cap@16`
in 24 bytes, string header `data@0 len@8` in 16 bytes, local and `reflect` alike. -/
def gc64Layout : Layout :=
  ⟨24, 0, 8, 16, 24, 0, 8, 16, 16, 0, 8, 16, 0, 8⟩

/-- A 64-bit host: pointers and `int` are eight bytes wide. -/
def gc64Arch : Arch := ⟨8, 8⟩

/-- A layout in which every local header matches its `reflect` counterpart and
the data pointers agree, but the string length sits at offset 16 while the slice
length sits at offset 8. -/
def lenMismatchLayout : Layout :=
  ⟨24, 0, 8, 16, 24, 0, 8, 16, 24, 0, 16, 24, 0, 16⟩

/-- A layout in which every local header matches its `reflect` counterpart, but
the string header stores its length first and its data pointer at offset 8. -/
def dataMismatchLayout : Layout :=
  ⟨24, 0, 8, 16, 24, 0, 8, 16, 16, 8, 0, 16, 8, 0⟩

/-- A layout in which the slice headers agree and the local string header is 16
bytes while `reflect.StringHeader` is 24 bytes. -/
def strSizeMismatchLayout : Layout :=
  ⟨24, 0, 8, 16, 24, 0, 8, 16, 16, 0, 8, 24, 0, 8⟩

/-! ## Helper lemmas -/

theorem maxInt32_eq : MaxInt32 = 2 ^ 31 - 1 := by decide

theorem mask_eq_mod (n : Nat) : n &&& MaxInt32 = n % 2 ^ 31 := by
  rw [maxInt32_eq, Nat.and_pow_two_sub_one_eq_mod]

theorem mask_le (n : Nat) : n &&& MaxInt32 ≤ MaxInt32 := by
  rw [mask_eq_mod, maxInt32_eq]
  have h : n % 2 ^ 31 < 2 ^ 31 := Nat.mod_lt _ (by decide)
  omega

theorem mask_eq_self_iff (n : Nat) : n &&& MaxInt32 = n ↔ n ≤ MaxInt32 := by
  rw [mask_eq_mod, maxInt32_eq]
  constructor
  · intro h
    have h2 : n % 2 ^ 31 < 2 ^ 31 := Nat.mod_lt _ (by decide)
    omega
  · intro h
    exact Nat.mod_eq_of_lt (by omega)

theorem init_ok_iff_agrees (L : Layout) : init L = .ok () ↔ L.agrees := by
  unfold init Layout.agrees
  split_ifs <;> simp_all

theorem panics_iff_not_ok (r : Outcome Unit) : (∃ msg, r = .panic msg) ↔ ¬ r = .ok () := by
  cases r with
  | ok v => simp
  | panic m => simp

theorem Bytes_of_nil (s : stringHeader) (h : s.data = 0) : Bytes s = .panic nilDerefMsg := by
  simp [Bytes, sliceArrayPtr, h]

theorem Bytes_of_ne_nil (s : stringHeader) (h : s.data ≠ 0) :
    Bytes s = .ok ⟨s.data, s.len % 2 ^ 31, s.len % 2 ^ 31⟩ := by
  have hb := mask_le s.len
  unfold Bytes sliceArrayPtr
  rw [if_neg h, if_neg (not_not.mpr hb), if_neg (not_not.mpr (le_refl _)), mask_eq_mod]
  rfl

theorem Bytes_of_small (s : stringHeader) (h : s.data ≠ 0) (hl : s.len ≤ MaxInt32) :
    Bytes s = .ok ⟨s.data, s.len, s.len⟩ := by
  have hm : s.len % 2 ^ 31 = s.len := by
    rw [← mask_eq_mod]; exact (mask_eq_self_iff s.len).mpr hl
  rw [Bytes_of_ne_nil s h, hm]

/-! ## Claims about the conversions -/

/-- C1 (as amended): for every byte slice B whose data pointer is not nil and whose
length is at most 2^31 - 1, whatever its capacity, `Bytes(Str(B))` returns a slice
with the length of B, the data pointer of B and, in every memory, the byte content
of B. -/
theorem Bytes_Str_roundtrip (B : sliceHeader) (hp : B.data ≠ 0) (hl : B.len ≤ MaxInt32) :
    ∃ b, Bytes (Str B) = .ok b ∧ b.len = B.len ∧ b.data = B.data ∧
      ∀ m, b.bytes m = B.bytes m := by
  refine ⟨⟨B.data, B.len, B.len⟩, ?_, rfl, rfl, fun m => rfl⟩
  exact Bytes_of_small (Str B) hp hl

/-- C1 witness: the five bytes of "hello" at address 4096 with capacity 5 come back
with length 5 and the same address and content. -/
theorem Bytes_Str_roundtrip_witness :
    (sliceHeader.mk 4096 5 5).data ≠ 0 ∧ (sliceHeader.mk 4096 5 5).len ≤ MaxInt32 ∧
    ∃ b, Bytes (Str (sliceHeader.mk 4096 5 5)) = .ok b ∧ b.len = (sliceHeader.mk 4096 5 5).len ∧
      b.data = (sliceHeader.mk 4096 5 5).data ∧
      ∀ m, b.bytes m = (sliceHeader.mk 4096 5 5).bytes m :=
  ⟨by decide, by decide, Bytes_Str_roundtrip (sliceHeader.mk 4096 5 5) (by decide) (by decide)⟩

/-- C1 counterexample: for the byte slice of length and capacity 2^31 at address
4096, `Bytes(Str(B))` returns the slice of length 0 and capacity 0 at 4096, so
no returned slice has the length of B. -/
theorem Bytes_Str_roundtrip_fails :
    Bytes (Str (sliceHeader.mk 4096 (2 ^ 31) (2 ^ 31))) = .ok (sliceHeader.mk 4096 0 0) ∧
    ¬ ∃ b, Bytes (Str (sliceHeader.mk 4096 (2 ^ 31) (2 ^ 31))) = .ok b ∧
      b.len = (sliceHeader.mk 4096 (2 ^ 31) (2 ^ 31)).len ∧
      b.data = (sliceHeader.mk 4096 (2 ^ 31) (2 ^ 31)).data ∧
      ∀ m, b.bytes m = (sliceHeader.mk 4096 (2 ^ 31) (2 ^ 31)).bytes m := by
  have hv : Bytes (Str (sliceHeader.mk 4096 (2 ^ 31) (2 ^ 31))) = .ok (sliceHeader.mk 4096 0 0) := by
    decide
  refine ⟨hv, ?_⟩
  rintro ⟨b, hb, hlen, -⟩
  rw [hv] at hb
  cases hb
  simp at hlen

/-- C2 (as amended): for every string T whose data pointer is not nil and whose
length is at most 2^31 - 1, `Bytes(T)` returns a slice b and `Str(b)` has the
length, the data pointer and, in every memory, the byte content of T; it is T. -/
theorem Str_Bytes_roundtrip (T : stringHeader) (hp : T.data ≠ 0) (hl : T.len ≤ MaxInt32) :
    ∃ b, Bytes T = .ok b ∧ (Str b).len = T.len ∧ (Str b).data = T.data ∧
      (∀ m, (Str b).bytes m = T.bytes m) ∧ Str b = T := by
  exact ⟨⟨T.data, T.len, T.len⟩, Bytes_of_small T hp hl, rfl, rfl, fun m => rfl, rfl⟩

/-- C2 witness: the string of length 5 at address 4096. -/
theorem Str_Bytes_roundtrip_witness :
    (stringHeader.mk 4096 5).data ≠ 0 ∧ (stringHeader.mk 4096 5).len ≤ MaxInt32 ∧
    ∃ b, Bytes (stringHeader.mk 4096 5) = .ok b ∧ (Str b).len = (stringHeader.mk 4096 5).len ∧
      (Str b).data = (stringHeader.mk 4096 5).data ∧
      (∀ m, (Str b).bytes m = (stringHeader.mk 4096 5).bytes m) ∧
      Str b = stringHeader.mk 4096 5 :=
  ⟨by decide, by decide, Str_Bytes_roundtrip (stringHeader.mk 4096 5) (by decide) (by decide)⟩

/-- C2 counterexample: for the string of length 2^31 + 5 at address 4096,
`Str(Bytes(T))` is the string of length 5 at 4096, so the length of T is lost. -/
theorem Str_Bytes_roundtrip_fails :
    Bytes (stringHeader.mk 4096 (2 ^ 31 + 5)) = .ok (sliceHeader.mk 4096 5 5) ∧
    Str (sliceHeader.mk 4096 5 5) = stringHeader.mk 4096 5 ∧
    ¬ ∃ b, Bytes (stringHeader.mk 4096 (2 ^ 31 + 5)) = .ok b ∧
      (Str b).len = (stringHeader.mk 4096 (2 ^ 31 + 5)).len ∧
      (Str b).data = (stringHeader.mk 4096 (2 ^ 31 + 5)).data ∧
      ∀ m, (Str b).bytes m = (stringHeader.mk 4096 (2 ^ 31 + 5)).bytes m := by
  have hv : Bytes (stringHeader.mk 4096 (2 ^ 31 + 5)) = .ok (sliceHeader.mk 4096 5 5) := by
    decide
  refine ⟨hv, rfl, ?_⟩
  rintro ⟨b, hb, hlen, -⟩
  rw [hv] at hb
  cases hb
  simp [Str] at hlen

/-- C3 (as amended): for every string T whose data pointer is not nil and whose
length is at most 2^31 - 1, an empty one included, `Bytes(T)` returns a slice
whose length and capacity are both len(T) and whose data pointer is that of T. -/
theorem Bytes_len_cap_data (T : stringHeader) (hp : T.data ≠ 0) (hl : T.len ≤ MaxInt32) :
    ∃ b, Bytes T = .ok b ∧ b.len = T.len ∧ b.cap = T.len ∧ b.data = T.data :=
  ⟨⟨T.data, T.len, T.len⟩, Bytes_of_small T hp hl, rfl, rfl, rfl⟩

/-- C3 witness: the string of length 2^31 - 1 = 2147483647, the largest length the
amended claim admits, at address 4096; `Bytes` returns length and capacity
2147483647 there. -/
theorem Bytes_len_cap_data_witness :
    (stringHeader.mk 4096 2147483647).data ≠ 0 ∧
    (stringHeader.mk 4096 2147483647).len ≤ MaxInt32 ∧
    ∃ b, Bytes (stringHeader.mk 4096 2147483647) = .ok b ∧
      b.len = (stringHeader.mk 4096 2147483647).len ∧
      b.cap = (stringHeader.mk 4096 2147483647).len ∧
      b.data = (stringHeader.mk 4096 2147483647).data :=
  ⟨by decide, by decide,
    Bytes_len_cap_data (stringHeader.mk 4096 2147483647) (by decide) (by decide)⟩

/-- C3 counterexample: for the string of length 2^31 at address 4096, `Bytes(T)`
returns the slice of length 0 and capacity 0, not of length and capacity 2^31. -/
theorem Bytes_len_cap_data_fails :
    Bytes (stringHeader.mk 4096 (2 ^ 31)) = .ok (sliceHeader.mk 4096 0 0) ∧
    ¬ ∃ b, Bytes (stringHeader.mk 4096 (2 ^ 31)) = .ok b ∧
      b.len = (stringHeader.mk 4096 (2 ^ 31)).len ∧
      b.cap = (stringHeader.mk 4096 (2 ^ 31)).len ∧
      b.data = (stringHeader.mk 4096 (2 ^ 31)).data := by
  have hv : Bytes (stringHeader.mk 4096 (2 ^ 31)) = .ok (sliceHeader.mk 4096 0 0) := by
    decide
  refine ⟨hv, ?_⟩
  rintro ⟨b, hb, hlen, -⟩
  rw [hv] at hb
  cases hb
  simp at hlen

/-- C4: for every byte slice, a zero-length one included, `Str` returns a string
with the length and the data pointer of the slice and, in every memory, its byte
content; two slices that differ only in capacity give the same string. -/
theorem Str_len_data_ignores_cap (data len cap cap2 : Nat) :
    (Str ⟨data, len, cap⟩).len = len ∧ (Str ⟨data, len, cap⟩).data = data ∧
    (∀ m, (Str ⟨data, len, cap⟩).bytes m = (sliceHeader.mk data len cap).bytes m) ∧
    (Str ⟨data, 0, cap⟩).len = 0 ∧ (Str ⟨data, 0, cap⟩).data = data ∧
    Str ⟨data, len, cap⟩ = Str ⟨data, len, cap2⟩ :=
  ⟨rfl, rfl, fun _ => rfl, rfl, rfl, rfl⟩

/-- C5 (the code at the failing input): for the zero-value string, nil data pointer
and length 0, `Bytes` does not return a slice of length 0 and capacity 0; slicing
the nil array pointer panics with a nil pointer dereference. -/
theorem Bytes_nil_empty_string_panics :
    Bytes (stringHeader.mk 0 0) = .panic nilDerefMsg ∧
    ¬ ∃ b, Bytes (stringHeader.mk 0 0) = .ok b := by
  have hv : Bytes (stringHeader.mk 0 0) = .panic nilDerefMsg := by decide
  refine ⟨hv, ?_⟩
  rintro ⟨b, hb⟩
  rw [hv] at hb
  cases hb

/-- C10: the bound `len(s) & MaxInt32` that `Bytes` passes as both indices of its
slice expression is `len(s) mod 2^31`. It is at most `MaxInt32 = 2^31 - 1`, the
length of the array type, so for every pointer the slice expression either panics
on the nil pointer or returns, never on a bounds check; `Bytes` therefore returns
length and capacity `len(s) mod 2^31` whenever the data pointer is not nil. The
bound equals `len(s)` exactly when `len(s) <= 2^31 - 1`, and `Bytes` returns length
and capacity `len(s)` exactly for those lengths. -/
theorem Bytes_bound_is_mod (s : stringHeader) :
    Bytes s = sliceArrayPtr s.data MaxInt32 (s.len % 2 ^ 31) (s.len % 2 ^ 31) ∧
    s.len &&& MaxInt32 = s.len % 2 ^ 31 ∧
    MaxInt32 = 2 ^ 31 - 1 ∧
    s.len &&& MaxInt32 ≤ MaxInt32 ∧
    (∀ p, sliceArrayPtr p MaxInt32 (s.len &&& MaxInt32) (s.len &&& MaxInt32) =
      if p = 0 then .panic nilDerefMsg
      else .ok ⟨p, s.len &&& MaxInt32, s.len &&& MaxInt32⟩) ∧
    Bytes s =
      (if s.data = 0 then .panic nilDerefMsg
       else .ok ⟨s.data, s.len % 2 ^ 31, s.len % 2 ^ 31⟩) ∧
    (s.len &&& MaxInt32 = s.len ↔ s.len ≤ 2 ^ 31 - 1) ∧
    (Bytes s = .ok ⟨s.data, s.len, s.len⟩ ↔ s.data ≠ 0 ∧ s.len ≤ 2 ^ 31 - 1) := by
  have hchar : Bytes s =
      (if s.data = 0 then .panic nilDerefMsg
       else .ok ⟨s.data, s.len % 2 ^ 31, s.len % 2 ^ 31⟩) := by
    by_cases h : s.data = 0
    · rw [if_pos h, Bytes_of_nil s h]
    · rw [if_neg h, Bytes_of_ne_nil s h]
  have hiff : s.len &&& MaxInt32 = s.len ↔ s.len ≤ 2 ^ 31 - 1 := by
    rw [← maxInt32_eq]
    exact mask_eq_self_iff _
  refine ⟨?_, mask_eq_mod _, maxInt32_eq, mask_le _, ?_, hchar, hiff, ?_⟩
  · unfold Bytes
    rw [mask_eq_mod]
  · intro p
    by_cases h : p = 0
    · rw [if_pos h]
      unfold sliceArrayPtr
      rw [if_pos h]
    · rw [if_neg h]
      unfold sliceArrayPtr
      rw [if_neg h, if_neg (not_not.mpr (mask_le s.len)), if_neg (not_not.mpr (le_refl _))]
      rfl
  · rw [hchar, ← hiff, mask_eq_mod]
    by_cases h : s.data = 0
    · rw [if_pos h]
      constructor
      · intro hc
        exact Outcome.noConfusion hc
      · intro hc
        exact absurd h hc.1
    · rw [if_neg h]
      constructor
      · intro hc
        have hs := Outcome.ok.inj hc
        exact ⟨h, congrArg sliceHeader.len hs⟩
      · intro hc
        rw [hc.2]

/-! ## Claims about the layout verifier -/

/-- C6: `init` panics if and only if at least one of its nine comparisons finds a
difference, and it returns normally if and only if all nine agree. -/
theorem init_panics_iff (L : Layout) :
    ((∃ msg, init L = .panic msg) ↔
      (L.sliceHdrSize ≠ L.reflectSliceHdrSize ∨
       L.sliceHdrData ≠ L.reflectSliceHdrData ∨
       L.sliceHdrLen ≠ L.reflectSliceHdrLen ∨
       L.sliceHdrCap ≠ L.reflectSliceHdrCap ∨
       L.strHdrSize ≠ L.reflectStrHdrSize ∨
       L.strHdrData ≠ L.reflectStrHdrData ∨
       L.strHdrLen ≠ L.reflectStrHdrLen ∨
       L.reflectSliceHdrData ≠ L.reflectStrHdrData ∨
       L.reflectSliceHdrLen ≠ L.reflectStrHdrLen)) ∧
    (init L = .ok () ↔
      (L.sliceHdrSize = L.reflectSliceHdrSize ∧
       L.sliceHdrData = L.reflectSliceHdrData ∧
       L.sliceHdrLen = L.reflectSliceHdrLen ∧
       L.sliceHdrCap = L.reflectSliceHdrCap ∧
       L.strHdrSize = L.reflectStrHdrSize ∧
       L.strHdrData = L.reflectStrHdrData ∧
       L.strHdrLen = L.reflectStrHdrLen ∧
       L.reflectSliceHdrData = L.reflectStrHdrData ∧
       L.reflectSliceHdrLen = L.reflectStrHdrLen)) := by
  have hok := init_ok_iff_agrees L
  unfold Layout.agrees at hok
  refine ⟨?_, hok⟩
  rw [panics_iff_not_ok, hok]
  omega

/-- C7 (the code at the failing input): a mismatch of the length offsets of the two
canonical headers and a mismatch of their data-pointer offsets panic with one and
the same message, which names the data pointer and does not contain "len"; and the
message for a string-header size mismatch does not contain "size". -/
theorem init_len_mismatch_reported_as_data_pointer :
    init lenMismatchLayout = .panic "string internal data pointer different from slice" ∧
    init dataMismatchLayout = .panic "string internal data pointer different from slice" ∧
    ¬ ("len".toList <:+: "string internal data pointer different from slice".toList) ∧
    init strSizeMismatchLayout = .panic "string internal format has changed" ∧
    ¬ ("size".toList <:+: "string internal format has changed".toList) := by
  refine ⟨?_, ?_, ?_, ?_, ?_⟩
  · decide
  · decide
  · decide
  · decide
  · decide

/-- C9: if `init` returns without panicking, the two local headers agree on their
pointer and length prefix: the data fields have the same offset, the len fields
have the same offset, and on every host the data fields have one size and the len
fields have one size. -/
theorem init_ok_local_headers_agree (L : Layout) (A : Arch) (h : init L = .ok ()) :
    L.sliceHdrData = L.strHdrData ∧ L.sliceHdrLen = L.strHdrLen ∧
    (∃ p, fieldSize A sliceHeaderDecl "data" = some p ∧
      fieldSize A stringHeaderDecl "data" = some p) ∧
    (∃ l, fieldSize A sliceHeaderDecl "len" = some l ∧
      fieldSize A stringHeaderDecl "len" = some l) := by
  obtain ⟨-, h2, h3, -, -, h6, h7, h8, h9⟩ := (init_ok_iff_agrees L).mp h
  refine ⟨?_, ?_, ⟨A.ptrSize, rfl, rfl⟩, ⟨A.intSize, rfl, rfl⟩⟩
  · rw [h2, h8, ← h6]
  · rw [h3, h9, ← h7]

/-- C9 witness: the gc layout of a 64-bit host passes `init`. -/
theorem init_ok_local_headers_agree_witness :
    init gc64Layout = .ok () ∧
    (gc64Layout.sliceHdrData = gc64Layout.strHdrData ∧
     gc64Layout.sliceHdrLen = gc64Layout.strHdrLen ∧
     (∃ p, fieldSize gc64Arch sliceHeaderDecl "data" = some p ∧
       fieldSize gc64Arch stringHeaderDecl "data" = some p) ∧
     (∃ l, fieldSize gc64Arch sliceHeaderDecl "len" = some l ∧
       fieldSize gc64Arch stringHeaderDecl "len" = some l)) :=
  ⟨by decide, init_ok_local_headers_agree gc64Layout gc64Arch (by decide)⟩

end Unsafeconv
